import Mathlib

/-!
Shallow embedding of the user-account backend (Express + Mongoose controllers,
Cloudinary upload utility, user routes) and proofs about the behaviour its
specification claims.

The embedding follows `src/unnamed/part_001` (user controller),
`src/unnamed/part_002` (Cloudinary utility) and `src/unnamed/part_003`
(user routes).  Mongoose/MongoDB and the JWT library are external
collaborators; their calls are modelled at the boundary, each with a comment
at its definition explaining the modelling.  `user.model.js` (token minting,
password methods) is not among the provided sources; those leaves are
modelled from the specification and marked as such.
-/

set_option autoImplicit false

namespace YtBackend

/-- Kind of a JSON web token: signed with the access secret or with the
refresh secret.  Verification with a secret succeeds only for tokens of the
matching kind. -/
inductive TokenKind where
  | access
  | refresh
deriving DecidableEq, Repr

/-- Modelled from the spec: `user.model.js` is not among the provided
sources.  The Token Issuer "mints short-lived access tokens and longer-lived
refresh tokens bound to a user identity".  A token carries its kind, the
embedded user id, and a serial number drawn from a store-wide issuance
counter; the serial represents the freshness (iat/exp claims) that makes
successively minted tokens distinct values. -/
structure Token where
  kind : TokenKind
  uid : Nat
  serial : Nat
deriving DecidableEq, Repr

/-- A stored user document (the `users` collection). -/
structure User where
  id : Nat
  username : String
  email : String
  fullName : String
  password : String
  avatar : String
  coverImage : String
  refreshToken : Option Token
  watchHistory : List Nat
deriving DecidableEq, Repr

/-- A subscription edge document (`subscription.model.js`): `subscriber`
follows `channel`; both reference users by id. -/
structure Subscription where
  subscriber : Nat
  channel : Nat
deriving DecidableEq, Repr

/-- A video document (referenced by watch history; owner references a user). -/
structure Video where
  id : Nat
  owner : Nat
  title : String
deriving DecidableEq, Repr

/-- The document store.  `nextId` feeds `User.create`; `nextTokenSerial`
feeds token minting (see `Token`). -/
structure DB where
  users : List User
  subscriptions : List Subscription
  videos : List Video
  nextId : Nat
  nextTokenSerial : Nat
deriving DecidableEq, Repr

/-- Errors escaping a handler: `api` is a thrown `ApiError(status, message)`;
`jsTypeError` is a raised JavaScript `TypeError`; `jsError` is any other
raised JavaScript error (e.g. a filesystem `ENOENT`). -/
inductive Err where
  | api : Nat → String → Err
  | jsTypeError : String → Err
  | jsError : String → Err
deriving DecidableEq, Repr

/-- `User.findById`: first user whose `_id` equals the given id. -/
def findById (users : List User) (uid : Nat) : Option User :=
  users.find? (fun u => u.id = uid)

/-- `User.findByIdAndUpdate` at the store boundary: rewrite the matching
document with `f`, leave every other document unchanged.  (When no document
matches, the store is unchanged, as in Mongo.) -/
def updateById (users : List User) (uid : Nat) (f : User → User) : List User :=
  users.map (fun u => if u.id = uid then f u else u)

/-- The Cloudinary upload response; only `url` is read by the controllers. -/
structure CloudResponse where
  url : String
deriving DecidableEq, Repr

/-- The remote upload call `cloudinary.uploader.upload(path, ...)`, modelled
at the service boundary as an oracle: `some response` when the remote upload
succeeds, `none` when it rejects (network/service failure). -/
abbrev Uploader : Type := String → Option CloudResponse

/-- The server's local filesystem of staged temp files, as the multiset of
their paths. -/
abbrev Fs : Type := List String

/-- `fs.unlinkSync`: removes the file, or raises if it does not exist. -/
def unlinkSync (p : String) (fs : Fs) : Except Err Fs :=
  if p ∈ fs then .ok (fs.erase p) else .error (.jsError "ENOENT")

/-- `uploadOnCloudinary` (`src/unnamed/part_002`, lines 10-25):
inside a `try`, returns `null` if the path is falsy (absent or empty);
otherwise uploads, then `unlinkSync`s the local file and returns the
response; on any exception the `catch` `unlinkSync`s the local file and
returns `null`.  An exception raised by `unlinkSync` itself inside the
`catch` escapes the function.  The result pairs the returned value (or the
escaping error) with the filesystem after the call. -/
def uploadOnCloudinary (upl : Uploader) (localFilePath : Option String) (fs : Fs) :
    Except Err (Option CloudResponse) × Fs :=
  match localFilePath with
  | none => (.ok none, fs)
  | some p =>
    if p = "" then (.ok none, fs)
    else
      match upl p with
      | some response =>
        -- try-branch: upload succeeded, then unlinkSync; if that raises,
        -- the catch runs unlinkSync again on the same missing path and the
        -- second raise escapes.
        match unlinkSync p fs with
        | .ok fs' => (.ok (some response), fs')
        | .error e => (.error e, fs)
      | none =>
        -- upload rejected: catch-branch unlinkSyncs and returns null; if
        -- unlinkSync raises, the raise escapes.
        match unlinkSync p fs with
        | .ok fs' => (.ok none, fs')
        | .error e => (.error e, fs)

/-- JavaScript `String.prototype.toLowerCase()`, modelled over the character
list (ASCII lowering; identifiers in this system are ASCII). -/
def jsToLower (s : String) : String :=
  ⟨s.data.map Char.toLower⟩

/-- JavaScript `String.prototype.trim()`: strips leading and trailing
whitespace, modelled over the character list. -/
def jsTrim (s : String) : String :=
  ⟨((s.data.dropWhile Char.isWhitespace).reverse.dropWhile
      Char.isWhitespace).reverse⟩

/-- A field value inside a serialized user document. -/
inductive DocVal where
  | str : String → DocVal
  | num : Nat → DocVal
  | tok : Token → DocVal
  | ids : List Nat → DocVal
deriving DecidableEq, Repr

/-- A serialized document: ordered field/value pairs. -/
abbrev Doc : Type := List (String × DocVal)

/-- Serialization of a stored user document.  Every stored field appears;
`refreshToken` appears only when the field is set (Mongo omits unset
fields). -/
def userDoc (u : User) : Doc :=
  [("_id", .num u.id), ("username", .str u.username), ("email", .str u.email),
   ("fullName", .str u.fullName), ("password", .str u.password),
   ("avatar", .str u.avatar), ("coverImage", .str u.coverImage),
   ("watchHistory", .ids u.watchHistory)] ++
  (match u.refreshToken with
   | some t => [("refreshToken", .tok t)]
   | none => [])

/-- `.select("-field1 -field2")`: drop the excluded keys from the
serialized document. -/
def selectExcluding (keys : List String) (d : Doc) : Doc :=
  d.filter (fun kv => ¬ kv.1 ∈ keys)

/-- JavaScript truthiness of an optional string: `undefined` and `""` are
falsy. -/
def falsyStr : Option String → Bool
  | none => true
  | some s => s = ""

/-- The request body of `POST /register`; each text field may be absent. -/
structure RegisterBody where
  fullName : Option String
  email : Option String
  username : Option String
  password : Option String
deriving DecidableEq, Repr

/-- One entry of a multer-staged upload field. -/
structure UploadedFile where
  path : String
deriving DecidableEq, Repr

/-- `req.files` as produced by `upload.fields([{avatar},{coverImage}])`:
each field key is present (with the staged files) or absent. -/
structure RegisterFiles where
  avatar : Option (List UploadedFile)
  coverImage : Option (List UploadedFile)
deriving DecidableEq, Repr

/-- One predicate application of the `registerUser` empty-field validation:
`field?.trim() === ""` — an absent field yields `undefined`, which is not
`""`; a present field is compared after trimming. -/
def blankPresent : Option String → Bool
  | none => false
  | some s => jsTrim s = ""

/-- One branch of the `findOne({$or: [{email}, {username}]})` duplicate
check, evaluated on a stored user.  A present value is compared for
equality with the stored field; Mongoose strips a key whose value is
`undefined` from a query filter, and the resulting empty branch `{}`
matches every document, hence `none` matches. -/
def orMatch (email username : Option String) (u : User) : Bool :=
  (match email with
   | some e => u.email = e
   | none => true) ||
  (match username with
   | some un => u.username = un
   | none => true)

/-- Combined server state: document store plus staged temp files. -/
structure St where
  db : DB
  fs : Fs
deriving DecidableEq, Repr

/-- A successful handler response: the HTTP status, the `ApiResponse`
envelope's `statusCode`, and its `data`. -/
structure ApiOk (α : Type) where
  httpStatus : Nat
  statusCode : Nat
  data : α
deriving DecidableEq, Repr

/-- `registerUser` (`src/unnamed/part_001`, lines 12-87).
Validates the four text fields (`field?.trim() === ""`); rejects 409 when
`findOne({$or: [{email},{username}]})` matches; computes
`req.files?.avatar[0]?.path` — note the optional chain guards only
`req.files` and `.path`, so when `req.files` exists without an `avatar`
key, `req.files.avatar[0]` raises a TypeError; computes the cover path
defensively (`Array.isArray` + length check); throws 400 when the avatar
path is falsy; uploads avatar then cover image; throws 500 when the avatar
upload returned null; creates the user (username lowercased, cover URL
defaulted to `""`); re-fetches it minus password/refreshToken; answers
HTTP 201 with envelope code 200.  `User.create` with an absent required
field raises a Mongoose ValidationError (the user schema is not among the
provided sources; its required fields are modelled from the spec's data
model: fullName, email, username, password all required). -/
def registerUser (upl : Uploader) (body : RegisterBody)
    (files : Option RegisterFiles) (st : St) : Except Err (ApiOk Doc) × St :=
  if [body.fullName, body.email, body.username, body.password].any blankPresent then
    (.error (.api 400 "Please fill in all fields"), st)
  else
    match st.db.users.find? (orMatch body.email body.username) with
    | some _ => (.error (.api 409 "User already exists"), st)
    | none =>
      match files with
      | none =>
        -- req.files is undefined: avatarLocalPath and coverImageLocalPath
        -- are both undefined, and the `!avatarLocalPath` guard fires.
        (.error (.api 400 "Please upload an avatar"), st)
      | some fl =>
        match fl.avatar with
        | none =>
          -- req.files exists but has no avatar key:
          -- `req.files.avatar[0]` indexes undefined.
          (.error (.jsTypeError "Cannot read properties of undefined (reading 0)"), st)
        | some avatarArr =>
          let avatarLocalPath : Option String := avatarArr.head?.map (fun f => f.path)
          let coverImageLocalPath : Option String :=
            match fl.coverImage with
            | some (c :: _) => some c.path
            | _ => none
          if falsyStr avatarLocalPath then
            (.error (.api 400 "Please upload an avatar"), st)
          else
            match uploadOnCloudinary upl avatarLocalPath st.fs with
            | (.error e, fs1) => (.error e, { st with fs := fs1 })
            | (.ok avatarRes, fs1) =>
              match uploadOnCloudinary upl coverImageLocalPath fs1 with
              | (.error e, fs2) => (.error e, { st with fs := fs2 })
              | (.ok coverRes, fs2) =>
                match avatarRes with
                | none => (.error (.api 500 "Error uploading avatar"), { st with fs := fs2 })
                | some avatar =>
                  match body.fullName, body.email, body.username, body.password with
                  | some fn, some em, some un, some pw =>
                    let u : User :=
                      { id := st.db.nextId, username := jsToLower un, email := em,
                        fullName := fn, password := pw, avatar := avatar.url,
                        coverImage := (match coverRes with
                                       | some c => if c.url = "" then "" else c.url
                                       | none => ""),
                        refreshToken := none, watchHistory := [] }
                    let db' : DB :=
                      { st.db with
                        users := st.db.users ++ [u],
                        nextId := st.db.nextId + 1 }
                    match findById db'.users u.id with
                    | none => (.error (.api 500 "Error creating user"),
                               { db := db', fs := fs2 })
                    | some userCreated =>
                      (.ok { httpStatus := 201, statusCode := 200,
                             data := selectExcluding ["password", "refreshToken"]
                                       (userDoc userCreated) },
                       { db := db', fs := fs2 })
                  | _, _, _, _ =>
                    (.error (.jsError "ValidationError"), { st with fs := fs2 })

/-- Modelled from the spec: `user.generateAccessToken()` — the Token Issuer
"generates an access token (short expiry, embeds minimal identity claims)".
`user.model.js` is not among the provided sources; the mint is modelled as a
token of access kind carrying the user id and the next issuance serial. -/
def generateAccessToken (uid serial : Nat) : Token :=
  { kind := .access, uid := uid, serial := serial }

/-- Modelled from the spec: `user.generateRefreshToken()` — the Token Issuer
generates "a refresh token (longer expiry)".  Modelled as a token of refresh
kind carrying the user id and the next issuance serial. -/
def generateRefreshToken (uid serial : Nat) : Token :=
  { kind := .refresh, uid := uid, serial := serial }

/-- Modelled from the spec: `jwt.verify(token, REFRESH_TOKEN_SECRET)` —
"verifies signature/expiry of the token, fails with `Unauthorized` on
verification failure"; on success the decoded payload carries the embedded
user id (`decodedToken?._id`).  A token verifies under the refresh secret
iff it was minted as a refresh token. -/
def jwtVerifyRefresh (t : Token) : Option Nat :=
  if t.kind = .refresh then some t.uid else none

/-- `generateAccessAndRefreshTokens` (`src/unnamed/part_001`, lines 89-104):
loads the user, mints an access and a refresh token, stores the refresh
token on the user document (`user.save`) and returns both.  Any failure
inside the `try` (in particular `user` being null, so that
`user.generateAccessToken()` raises) is caught and rethrown as
`ApiError(500, ...)`. -/
def generateAccessAndRefreshTokens (uid : Nat) (db : DB) :
    Except Err ((Token × Token) × DB) :=
  match findById db.users uid with
  | none =>
    .error (.api 500 "Something went wrong while generating refresh and access tokens")
  | some user =>
    let accessToken := generateAccessToken user.id db.nextTokenSerial
    let refreshToken := generateRefreshToken user.id (db.nextTokenSerial + 1)
    let users' := updateById db.users user.id
      (fun u => { u with refreshToken := some refreshToken })
    .ok ((accessToken, refreshToken),
         { db with users := users', nextTokenSerial := db.nextTokenSerial + 2 })

/-- The response of a successful `POST /refresh-token`: the cookies set and
the `ApiResponse` body fields.  `refreshTokenField` is the body's
`refreshToken` entry and `cookieRefresh` the `refreshToken` cookie value;
both are set from the handler's `newRefreshToken` variable. -/
structure RefreshResult where
  statusCode : Nat
  accessToken : Token
  refreshTokenField : Option Token
  cookieAccess : Option Token
  cookieRefresh : Option Token
deriving DecidableEq, Repr

/-- `refreshAccessToken` (`src/unnamed/part_001`, lines 188-229):
401 when no incoming token; inside a `try` (whose `catch` rethrows every
error as `ApiError(401, "Invalid refresh token")`): verifies the token
against the refresh secret, loads the user by the embedded id, requires the
stored `refreshToken` to equal the incoming token, then calls
`generateAccessAndRefreshTokens`.  The call's result is the object
`{accessToken, refreshToken}`, but the handler destructures
`const { accessToken, newRefreshToken } = ...`: the object has no
`newRefreshToken` property, so that variable is `undefined` (modelled as
`none`), and it is what the `refreshToken` cookie and body field carry. -/
def refreshAccessToken (incoming : Option Token) (db : DB) :
    Except Err RefreshResult × DB :=
  match incoming with
  | none => (.error (.api 401 "Unauthorized request"), db)
  | some tok =>
    match jwtVerifyRefresh tok with
    | none => (.error (.api 401 "Invalid refresh token"), db)
    | some uid =>
      match findById db.users uid with
      | none => (.error (.api 401 "Invalid refresh token"), db)
      | some user =>
        if user.refreshToken ≠ some tok then
          (.error (.api 401 "Invalid refresh token"), db)
        else
          match generateAccessAndRefreshTokens user.id db with
          | .error _ => (.error (.api 401 "Invalid refresh token"), db)
          | .ok ((accessToken, _issued), db') =>
            let newRefreshToken : Option Token := none
            (.ok { statusCode := 200, accessToken := accessToken,
                   refreshTokenField := newRefreshToken,
                   cookieAccess := some accessToken,
                   cookieRefresh := newRefreshToken }, db')

/-- The response of `POST /logout`: status and the cookie names cleared. -/
structure LogoutResult where
  statusCode : Nat
  clearedCookies : List String
deriving DecidableEq, Repr

/-- `logoutUser` (`src/unnamed/part_001`, lines 163-186):
`findByIdAndUpdate(req.user._id, { $set: { refreshToken: undefined } })` —
Mongoose (6+) strips keys whose value is `undefined` from update documents
(the same stripping `orMatch` models for query filters), so the `$set`
carries no fields and the matched document is rewritten unchanged: the
stored refresh token survives.  The handler then clears both token cookies
and answers 200. -/
def logoutUser (uid : Nat) (db : DB) : LogoutResult × DB :=
  let users' := updateById db.users uid (fun u => u)
  ({ statusCode := 200, clearedCookies := ["accessToken", "refreshToken"] },
   { db with users := users' })

/-- The channel view produced by the `getUserChannelProfile` pipeline:
the `$project` stage keeps the listed fields (and `_id`, kept by
default). -/
structure ChannelView where
  id : Nat
  fullName : String
  username : String
  subscriberCount : Nat
  subscribedToCount : Nat
  isSubscribed : Bool
  avatar : String
  coverImage : String
  email : String
deriving DecidableEq, Repr

/-- The aggregation pipeline of `getUserChannelProfile`
(`src/unnamed/part_001`, lines 352-405): `$match` on the lowercased
username; `$lookup` of subscription edges by `channel` (as `subscribers`)
and by `subscriber` (as `subscribedTo`); `$addFields` of the two `$size`s
and of `isSubscribed` via `$in [req.user?._id, "$subscribers.subscriber"]`
— when the request carries no user, `undefined` is never an element of the
id array, so the condition is false; `$project` of the listed fields. -/
def channelPipeline (reqUser : Option Nat) (uname : String) (db : DB) :
    List ChannelView :=
  (db.users.filter (fun u => u.username = jsToLower uname)).map (fun u =>
    let subscribers := db.subscriptions.filter (fun s => s.channel = u.id)
    let subscribedTo := db.subscriptions.filter (fun s => s.subscriber = u.id)
    { id := u.id, fullName := u.fullName, username := u.username,
      subscriberCount := subscribers.length,
      subscribedToCount := subscribedTo.length,
      isSubscribed := (match reqUser with
                       | some v => (subscribers.map (fun s => s.subscriber)).contains v
                       | none => false),
      avatar := u.avatar, coverImage := u.coverImage, email := u.email })

/-- `getUserChannelProfile` (`src/unnamed/part_001`, lines 344-418):
400 when the username param is falsy; runs the aggregation; 404 when it
returns no document; otherwise answers 200 with `channel[0]`. -/
def getUserChannelProfile (reqUser : Option Nat) (username : Option String)
    (db : DB) : Except Err (ApiOk ChannelView) :=
  if falsyStr username then .error (.api 400 "Please provide a username")
  else
    match username with
    | none => .error (.api 400 "Please provide a username")
    | some un =>
      match channelPipeline reqUser un db with
      | [] => .error (.api 404 "Channel not found")
      | v :: _ => .ok { httpStatus := 200, statusCode := 200, data := v }

/-- The route `GET /c/:username` (`src/unnamed/part_003`, line 44) applies
no auth middleware (`verifyJWT` is absent), so `req.user` is never set and
the handler always runs with `req.user === undefined`. -/
def routeChannelProfile (username : Option String) (db : DB) :
    Except Err (ApiOk ChannelView) :=
  getUserChannelProfile none username db

/-- The owner snapshot the inner watch-history `$project` keeps
(`_id` is kept by default). -/
structure OwnerView where
  id : Nat
  fullName : String
  username : String
  avatar : String
deriving DecidableEq, Repr

/-- A watch-history video after the inner pipeline: the `owner` field has
been replaced by `$first` of the looked-up owner array — a single object,
or absent (`none`) when the lookup matched no user.  The video's other
stored fields pass through unprojected. -/
structure VideoView where
  id : Nat
  owner : Option OwnerView
  title : String
deriving DecidableEq, Repr

/-- The inner `$lookup` from `videos.owner` into `users`, projected down to
the owner snapshot. -/
def ownerLookup (db : DB) (ownerId : Nat) : List OwnerView :=
  (db.users.filter (fun u => u.id = ownerId)).map (fun u =>
    { id := u.id, fullName := u.fullName, username := u.username,
      avatar := u.avatar })

/-- One video of the watch-history join: owner replaced by
`$first` of the owner lookup (absent when the lookup is empty). -/
def videoView (db : DB) (v : Video) : VideoView :=
  { id := v.id, owner := (ownerLookup db v.owner).head?, title := v.title }

/-- The `$lookup` from `watchHistory` (an array local field) into `videos`:
for each stored reference, in stored order, the videos whose `_id` equals
it, each passed through the inner owner pipeline. -/
def watchHistoryLookup (db : DB) (ids : List Nat) : List VideoView :=
  ids.flatMap (fun i => (db.videos.filter (fun v => v.id = i)).map (videoView db))

/-- The outer document of the watch-history aggregation: the matched user
with the `watchHistory` field rewritten by the join.  The user's remaining
fields pass through unprojected and are never read by the handler, so the
embedding keeps `_id` and the rewritten `watchHistory`. -/
structure HistoryDoc where
  id : Nat
  watchHistory : List VideoView
deriving DecidableEq, Repr

/-- The full `getWatchHistory` aggregation (`src/unnamed/part_001`,
lines 421-461): `$match` on the authenticated user's id, then the
watch-history `$lookup`. -/
def watchHistoryAgg (uid : Nat) (db : DB) : List HistoryDoc :=
  (db.users.filter (fun u => u.id = uid)).map (fun u =>
    { id := u.id, watchHistory := watchHistoryLookup db u.watchHistory })

/-- A JavaScript value that is either a resolved result array or a pending
Mongoose `Aggregate` query object (a thenable that would resolve to the
wrapped array once awaited). -/
inductive Awaitable (α : Type) where
  | resolved : List α → Awaitable α
  | pending : List α → Awaitable α
deriving DecidableEq, Repr

/-- JavaScript `value[0]`: a resolved array has index properties; a pending
`Aggregate` object has none, so indexing it yields `undefined`. -/
def index0 {α : Type} : Awaitable α → Option α
  | .resolved l => l.head?
  | .pending _ => none

/-- `getWatchHistory` (`src/unnamed/part_001`, lines 420-468):
`const user = User.aggregate([...])` — the call is not awaited, so `user`
is the pending `Aggregate` object, not the result array; `user[0]` is
therefore `undefined`, and reading `.watchHistory` on it raises a
TypeError, which `asyncHandler` forwards as the request's error. -/
def getWatchHistory (uid : Nat) (db : DB) : Except Err (ApiOk (List VideoView)) :=
  let user : Awaitable HistoryDoc := .pending (watchHistoryAgg uid db)
  match index0 user with
  | some d => .ok { httpStatus := 200, statusCode := 200, data := d.watchHistory }
  | none =>
    .error (.jsTypeError "Cannot read properties of undefined (reading watchHistory)")

/-- `updateUserAvatar` (`src/unnamed/part_001`, lines 286-313):
400 when `req.file?.path` is falsy; uploads; 400 (message
"Error uploading avatar") when the upload returned null; otherwise
`findByIdAndUpdate` `$set`s only the `avatar` field and answers 200 with
the updated document minus password/refreshToken (`null` data when the id
matches no document, modelled as an empty document). -/
def updateUserAvatar (upl : Uploader) (uid : Nat) (file : Option String)
    (st : St) : Except Err (ApiOk Doc) × St :=
  if falsyStr file then (.error (.api 400 "Please upload an avatar"), st)
  else
    match uploadOnCloudinary upl file st.fs with
    | (.error e, fs') => (.error e, { st with fs := fs' })
    | (.ok none, fs') =>
      (.error (.api 400 "Error uploading avatar"), { st with fs := fs' })
    | (.ok (some avatar), fs') =>
      let users' := updateById st.db.users uid (fun u => { u with avatar := avatar.url })
      let st' : St := { db := { st.db with users := users' }, fs := fs' }
      match findById users' uid with
      | some u' =>
        (.ok { httpStatus := 200, statusCode := 200,
               data := selectExcluding ["password", "refreshToken"] (userDoc u') }, st')
      | none => (.ok { httpStatus := 200, statusCode := 200, data := [] }, st')

/-- `updateUserCoverImage` (`src/unnamed/part_001`, lines 315-342):
same shape as `updateUserAvatar`, over the `coverImage` field, with its
messages "Please upload the cover image" and "Error uploading cover
image"; the upload-failure error is likewise `ApiError(400, ...)`. -/
def updateUserCoverImage (upl : Uploader) (uid : Nat) (file : Option String)
    (st : St) : Except Err (ApiOk Doc) × St :=
  if falsyStr file then (.error (.api 400 "Please upload the cover image"), st)
  else
    match uploadOnCloudinary upl file st.fs with
    | (.error e, fs') => (.error e, { st with fs := fs' })
    | (.ok none, fs') =>
      (.error (.api 400 "Error uploading cover image"), { st with fs := fs' })
    | (.ok (some coverImage), fs') =>
      let users' := updateById st.db.users uid
        (fun u => { u with coverImage := coverImage.url })
      let st' : St := { db := { st.db with users := users' }, fs := fs' }
      match findById users' uid with
      | some u' =>
        (.ok { httpStatus := 200, statusCode := 200,
               data := selectExcluding ["password", "refreshToken"] (userDoc u') }, st')
      | none => (.ok { httpStatus := 200, statusCode := 200, data := [] }, st')

/-! ## Helper lemmas -/

instance {ε α : Type} [DecidableEq ε] [DecidableEq α] :
    DecidableEq (Except ε α) := fun x y =>
  match x, y with
  | .ok a, .ok b =>
    if h : a = b then isTrue (h ▸ rfl)
    else isFalse (fun hc => h (Except.ok.inj hc))
  | .error a, .error b =>
    if h : a = b then isTrue (h ▸ rfl)
    else isFalse (fun hc => h (Except.error.inj hc))
  | .ok _, .error _ => isFalse (fun hc => Except.noConfusion hc)
  | .error _, .ok _ => isFalse (fun hc => Except.noConfusion hc)

theorem unlinkSync_error_shape (p : String) (fs : Fs) (e : Err)
    (h : unlinkSync p fs = .error e) : e = .jsError "ENOENT" := by
  unfold unlinkSync at h
  split at h
  · simp at h
  · simpa using h.symm

theorem uploadOnCloudinary_some (upl : Uploader) (p : String) (fs : Fs) :
    uploadOnCloudinary upl (some p) fs
      = if p = "" then (.ok none, fs)
        else
          match upl p with
          | some response =>
            (match unlinkSync p fs with
             | .ok fs' => (.ok (some response), fs')
             | .error e => (.error e, fs))
          | none =>
            (match unlinkSync p fs with
             | .ok fs' => (.ok none, fs')
             | .error e => (.error e, fs)) := rfl

theorem uploadOnCloudinary_error_shape (upl : Uploader) (path : Option String)
    (fs : Fs) (e : Err) (fs' : Fs)
    (h : uploadOnCloudinary upl path fs = (.error e, fs')) :
    e = .jsError "ENOENT" := by
  cases path with
  | none => simp [uploadOnCloudinary] at h
  | some p =>
    rw [uploadOnCloudinary_some] at h
    split at h
    · simp at h
    · cases hup : upl p with
      | some resp =>
        rw [hup] at h
        cases hul : unlinkSync p fs with
        | ok fs2 => rw [hul] at h; simp at h
        | error e2 =>
          rw [hul] at h
          simp only [Prod.mk.injEq] at h
          rw [← Except.error.inj h.1]
          exact unlinkSync_error_shape p fs e2 hul
      | none =>
        rw [hup] at h
        cases hul : unlinkSync p fs with
        | ok fs2 => rw [hul] at h; simp at h
        | error e2 =>
          rw [hul] at h
          simp only [Prod.mk.injEq] at h
          rw [← Except.error.inj h.1]
          exact unlinkSync_error_shape p fs e2 hul

theorem findById_updateById (users : List User) (uid : Nat) (f : User → User)
    (hf : ∀ x, (f x).id = x.id) :
    findById (updateById users uid f) uid = (findById users uid).map f := by
  induction users with
  | nil => rfl
  | cons u us ih =>
    by_cases h : u.id = uid
    · simp [findById, updateById, List.find?_cons, h, hf u]
    · simpa [findById, updateById, List.find?_cons, h] using ih

theorem mem_updateById_of_ne (users : List User) (uid : Nat) (f : User → User)
    (w : User) (hw : w ∈ users) (hne : w.id ≠ uid) :
    w ∈ updateById users uid f := by
  unfold updateById
  exact List.mem_map.2 ⟨w, hw, by simp [hne]⟩

theorem not_mem_keys_selectExcluding (k : String) (keys : List String) (d : Doc)
    (hk : k ∈ keys) : k ∉ (selectExcluding keys d).map Prod.fst := by
  intro hmem
  obtain ⟨kv, hkv, rfl⟩ := List.mem_map.1 hmem
  have h2 := (List.mem_filter.1 hkv).2
  simp only [decide_eq_true_eq] at h2
  exact h2 hk

/-! ## Concrete stores used by the per-claim evaluations -/

/-- The stored refresh token of the user in `dbC1`. -/
def tok0 : Token := { kind := .refresh, uid := 1, serial := 0 }

/-- A user holding `tok0` as the current refresh token. -/
def userC1 : User :=
  { id := 1, username := "alice", email := "a@x.com", fullName := "Alice A",
    password := "pw", avatar := "av", coverImage := "", refreshToken := some tok0,
    watchHistory := [] }

/-- A store with one user whose refresh token is `tok0`. -/
def dbC1 : DB :=
  { users := [userC1], subscriptions := [], videos := [], nextId := 2,
    nextTokenSerial := 1 }

/-- An uploader whose remote upload always succeeds. -/
def uplOk : Uploader := fun p => some { url := "http://cdn/" ++ p }

/-- An uploader whose remote upload always fails. -/
def uplFail : Uploader := fun _ => none

/-- A well-formed registration body (all four fields present, non-blank). -/
def bodyOk : RegisterBody :=
  { fullName := some "Full Name", email := some "e@x.com",
    username := some "NewUser", password := some "secret" }

/-- An empty store with the two staged temp files of a registration. -/
def st0 : St :=
  { db := { users := [], subscriptions := [], videos := [], nextId := 10,
            nextTokenSerial := 0 },
    fs := ["ava.png", "cov.png"] }

/-- A store for the watch-history evaluation: user 7's history references
video 20 (whose owner 99 matches no user) then video 10 (owned by user 1). -/
def dbC2 : DB :=
  { users := [{ id := 7, username := "bob", email := "b@x", fullName := "Bob",
                password := "p", avatar := "a", coverImage := "",
                refreshToken := none, watchHistory := [20, 10] },
              { id := 1, username := "owner1", email := "o@x",
                fullName := "Owner One", password := "p", avatar := "oa",
                coverImage := "", refreshToken := none, watchHistory := [] }],
    subscriptions := [],
    videos := [{ id := 10, owner := 1, title := "t10" },
               { id := 20, owner := 99, title := "t20" }],
    nextId := 30, nextTokenSerial := 0 }

/-- A store where user 2 is subscribed to channel user 1 ("chan") and
channel 1 is subscribed to user 2. -/
def dbC4 : DB :=
  { users := [{ id := 1, username := "chan", email := "c@x", fullName := "Chan",
                password := "p", avatar := "a", coverImage := "",
                refreshToken := none, watchHistory := [] },
              { id := 2, username := "viewer", email := "v@x", fullName := "View",
                password := "p", avatar := "a", coverImage := "",
                refreshToken := none, watchHistory := [] }],
    subscriptions := [{ subscriber := 2, channel := 1 },
                      { subscriber := 1, channel := 2 }],
    videos := [], nextId := 3, nextTokenSerial := 0 }

/-! ## Claim theorems -/

/-- C7: for every call to the media uploader: with no path given it returns
null immediately; with a path (to an existing staged temp file), on upload
failure it deletes the local temp file and returns null, and on success it
deletes the local temp file and returns the remote descriptor — in both
outcomes the local file is removed exactly once. -/
theorem uploadOnCloudinary_cleanup (upl : Uploader) (p : String) (fs : Fs)
    (hmem : p ∈ fs) (hp : p ≠ "") :
    (uploadOnCloudinary upl none fs = (.ok none, fs)) ∧
    ((uploadOnCloudinary upl (some p) fs).2.count p + 1 = fs.count p) ∧
    (upl p = none → (uploadOnCloudinary upl (some p) fs).1 = .ok none) ∧
    (∀ r, upl p = some r → (uploadOnCloudinary upl (some p) fs).1 = .ok (some r)) := by
  have hcount : (fs.erase p).count p + 1 = fs.count p := by
    rw [List.count_erase_self]
    exact Nat.sub_add_cancel (List.count_pos_iff.2 hmem)
  have hunlink : unlinkSync p fs = .ok (fs.erase p) := by
    simp [unlinkSync, hmem]
  have hsome : uploadOnCloudinary upl (some p) fs
      = if p = "" then (.ok none, fs)
        else
          match upl p with
          | some response =>
            match unlinkSync p fs with
            | .ok fs' => (.ok (some response), fs')
            | .error e => (.error e, fs)
          | none =>
            match unlinkSync p fs with
            | .ok fs' => (.ok none, fs')
            | .error e => (.error e, fs) := rfl
  rw [if_neg hp] at hsome
  refine ⟨rfl, ?_, ?_, ?_⟩
  · rw [hsome]
    cases hup : upl p <;> simp only [hup, hunlink] <;> exact hcount
  · intro hup
    rw [hsome, hup, hunlink]
  · intro r hup
    rw [hsome, hup, hunlink]

/-- Witness for C7 at a concrete input: path "f" staged on the filesystem,
an uploader that always succeeds. -/
theorem uploadOnCloudinary_cleanup_witness :
    (("f" : String) ∈ (["f"] : Fs) ∧ ("f" : String) ≠ "") ∧
    ((uploadOnCloudinary uplOk none ["f"] = (.ok none, ["f"])) ∧
     ((uploadOnCloudinary uplOk (some "f") ["f"]).2.count "f" + 1
        = (["f"] : Fs).count "f") ∧
     (uplOk "f" = none → (uploadOnCloudinary uplOk (some "f") ["f"]).1 = .ok none) ∧
     (∀ r, uplOk "f" = some r →
        (uploadOnCloudinary uplOk (some "f") ["f"]).1 = .ok (some r))) :=
  ⟨⟨by decide, by decide⟩,
   uploadOnCloudinary_cleanup uplOk "f" ["f"] (by decide) (by decide)⟩

/-- C3 (code evaluated at the failing input): logging out user 1 of `dbC1`
answers 200 and clears both token cookies, but the `$set` whose only value
is `undefined` is stripped by the store driver, so the stored document — in
particular its refresh token `tok0` — survives unchanged, and presenting
`tok0` to the refresh operation after logout still succeeds, contradicting
the claim that the stored refresh token is cleared. -/
theorem logout_leaves_refresh_token_stored :
    ((logoutUser 1 dbC1).1.statusCode = 200) ∧
    ((logoutUser 1 dbC1).1.clearedCookies = ["accessToken", "refreshToken"]) ∧
    (findById (logoutUser 1 dbC1).2.users 1 = some userC1) ∧
    (userC1.refreshToken = some tok0) ∧
    ((refreshAccessToken (some tok0) (logoutUser 1 dbC1).2).1.toOption.map
        (fun r => r.statusCode) = some 200) :=
  ⟨rfl, rfl, by decide, rfl, rfl⟩

/-- C1 (code evaluated at the failing input): refreshing with the stored
token `tok0` succeeds (200) and persists a fresh rotated token
(serial 2 ≠ `tok0`); the old token is afterwards rejected with 401 and the
newly persisted token succeeds exactly once more (a second reuse is 401) —
but the response's `refreshToken` body field and cookie are `undefined`
(`none`), because the handler destructures `newRefreshToken` from an object
whose field is named `refreshToken`: the new pair is never returned to the
caller. -/
theorem refresh_rotation_destructuring_bug :
    ((refreshAccessToken (some tok0) dbC1).1.toOption.map
        (fun r => r.refreshTokenField) = some none) ∧
    ((refreshAccessToken (some tok0) dbC1).1.toOption.map
        (fun r => r.cookieRefresh) = some none) ∧
    ((refreshAccessToken (some tok0) dbC1).1.toOption.map
        (fun r => r.statusCode) = some 200) ∧
    (findById (refreshAccessToken (some tok0) dbC1).2.users 1
       = some { userC1 with
                refreshToken := some { kind := .refresh, uid := 1, serial := 2 } }) ∧
    (({ kind := .refresh, uid := 1, serial := 2 } : Token) ≠ tok0) ∧
    ((refreshAccessToken (some tok0) (refreshAccessToken (some tok0) dbC1).2).1
       = .error (.api 401 "Invalid refresh token")) ∧
    ((refreshAccessToken (some { kind := .refresh, uid := 1, serial := 2 })
        (refreshAccessToken (some tok0) dbC1).2).1.toOption.map
        (fun r => r.statusCode) = some 200) ∧
    ((refreshAccessToken (some { kind := .refresh, uid := 1, serial := 2 })
        (refreshAccessToken (some { kind := .refresh, uid := 1, serial := 2 })
          (refreshAccessToken (some tok0) dbC1).2).2).1
       = .error (.api 401 "Invalid refresh token")) :=
  ⟨rfl, rfl, rfl, by decide, by decide, rfl, rfl, rfl⟩

/-- C2 (code evaluated at the failing input): for user 7 with stored history
[20, 10], `getWatchHistory` raises a TypeError — `User.aggregate` is not
awaited, so the handler indexes the pending query object — while the
aggregation it builds (second conjunct) would have produced the videos in
stored order, with a single-object owner, and an absent owner where the
owner lookup matches no user. -/
theorem watchHistory_missing_await_raises :
    (getWatchHistory 7 dbC2
       = .error (.jsTypeError
           "Cannot read properties of undefined (reading watchHistory)")) ∧
    (watchHistoryAgg 7 dbC2
       = [{ id := 7,
            watchHistory :=
              [{ id := 20, owner := none, title := "t20" },
               { id := 10,
                 owner := some { id := 1, fullName := "Owner One",
                                 username := "owner1", avatar := "oa" },
                 title := "t10" }] }]) :=
  ⟨rfl, by decide⟩

/-- C5 (code evaluated at the failing input): a registration whose multipart
request carries a `coverImage` file but no `avatar` field (`req.files`
exists, its `avatar` key is absent) raises a TypeError — `req.files.avatar[0]`
indexes `undefined` — instead of the claimed 400; the 400 is produced only
when `req.files` itself is absent (second conjunct). -/
theorem register_missing_avatar_key_typeerror :
    ((registerUser uplOk bodyOk
        (some { avatar := none, coverImage := some [{ path := "cov.png" }] })
        st0).1
       = .error (.jsTypeError "Cannot read properties of undefined (reading 0)")) ∧
    ((registerUser uplOk bodyOk none st0).1
       = .error (.api 400 "Please upload an avatar")) :=
  ⟨rfl, rfl⟩

/-- C4 counterexample: user 2 is a subscriber of channel "chan" (their id
appears among the subscriber fields of the channel's subscription edges),
yet the profile returned through the `GET /c/:username` route reports
`isSubscribed = false` — the route applies no auth middleware, so the
handler never sees the requesting viewer's id. -/
theorem channel_profile_route_isSubscribed_counterexample :
    ((routeChannelProfile (some "chan") dbC4).toOption.map
        (fun r => r.data.isSubscribed) = some false) ∧
    2 ∈ ((dbC4.subscriptions.filter (fun s => s.channel = 1)).map
          (fun s => s.subscriber)) :=
  ⟨rfl, by decide⟩

/-- Every view built by the channel pipeline without a request user has
`isSubscribed = false` (`$in` of `undefined` in an id array is false). -/
theorem channelPipeline_none_isSubscribed (un : String) (db : DB) :
    ∀ x ∈ channelPipeline none un db, x.isSubscribed = false := by
  intro x hx
  obtain ⟨u, -, rfl⟩ := List.mem_map.1 hx
  rfl

/-- C4 (amended): for a channel matched by the (lowercased) username with N
edges whose `channel` field references it and M edges whose `subscriber`
field references it, the handler returns `subscriberCount = N` and
`subscribedToCount = M` exactly, and — when the request carries an
authenticated user id — `isSubscribed = true` iff that id appears among the
subscriber fields of the channel's edges; through the provided
`/c/:username` route no user id is ever attached, so the routed response
never reports `isSubscribed = true`. -/
theorem channel_profile_counts_and_isSubscribed (db : DB) (v : Nat)
    (un : String) (u : User) (hne : un ≠ "")
    (hhead : (db.users.filter (fun x => x.username = jsToLower un)).head? = some u) :
    ((getUserChannelProfile (some v) (some un) db).toOption.map
        (fun r => r.data.subscriberCount)
       = some (db.subscriptions.countP (fun s => s.channel = u.id))) ∧
    ((getUserChannelProfile (some v) (some un) db).toOption.map
        (fun r => r.data.subscribedToCount)
       = some (db.subscriptions.countP (fun s => s.subscriber = u.id))) ∧
    (((getUserChannelProfile (some v) (some un) db).toOption.map
        (fun r => r.data.isSubscribed) = some true)
       ↔ ∃ s ∈ db.subscriptions, s.channel = u.id ∧ s.subscriber = v) ∧
    ((routeChannelProfile (some un) db).toOption.map
        (fun r => r.data.isSubscribed) ≠ some true) := by
  have hfalsy : falsyStr (some un) = false := by
    simp [falsyStr, hne]
  have hred : ∀ (r : Option Nat), getUserChannelProfile r (some un) db
      = (match channelPipeline r un db with
         | [] => .error (.api 404 "Channel not found")
         | x :: _ => .ok { httpStatus := 200, statusCode := 200, data := x }) := by
    intro r
    unfold getUserChannelProfile
    rw [hfalsy]
    rfl
  cases hfil : db.users.filter (fun x => x.username = jsToLower un) with
  | nil => rw [hfil] at hhead; cases hhead
  | cons a tl =>
    rw [hfil] at hhead
    have ha : a = u := by
      simpa using hhead
    subst ha
    have hpipe : ∀ (r : Option Nat), channelPipeline r un db
        = (a :: tl).map (fun w =>
            { id := w.id, fullName := w.fullName, username := w.username,
              subscriberCount :=
                (db.subscriptions.filter (fun s => s.channel = w.id)).length,
              subscribedToCount :=
                (db.subscriptions.filter (fun s => s.subscriber = w.id)).length,
              isSubscribed :=
                (match r with
                 | some x =>
                   ((db.subscriptions.filter (fun s => s.channel = w.id)).map
                       (fun s => s.subscriber)).contains x
                 | none => false),
              avatar := w.avatar, coverImage := w.coverImage,
              email := w.email }) := by
      intro r
      unfold channelPipeline
      rw [hfil]
    have hget : getUserChannelProfile (some v) (some un) db
        = .ok { httpStatus := 200, statusCode := 200,
                data :=
                  { id := a.id, fullName := a.fullName, username := a.username,
                    subscriberCount :=
                      (db.subscriptions.filter (fun s => s.channel = a.id)).length,
                    subscribedToCount :=
                      (db.subscriptions.filter (fun s => s.subscriber = a.id)).length,
                    isSubscribed :=
                      ((db.subscriptions.filter (fun s => s.channel = a.id)).map
                          (fun s => s.subscriber)).contains v,
                    avatar := a.avatar, coverImage := a.coverImage,
                    email := a.email } } := by
      rw [hred (some v), hpipe (some v)]
      rfl
    have hroute : routeChannelProfile (some un) db
        = .ok { httpStatus := 200, statusCode := 200,
                data :=
                  { id := a.id, fullName := a.fullName, username := a.username,
                    subscriberCount :=
                      (db.subscriptions.filter (fun s => s.channel = a.id)).length,
                    subscribedToCount :=
                      (db.subscriptions.filter (fun s => s.subscriber = a.id)).length,
                    isSubscribed := false,
                    avatar := a.avatar, coverImage := a.coverImage,
                    email := a.email } } := by
      show getUserChannelProfile none (some un) db = _
      rw [hred none, hpipe none]
      rfl
    refine ⟨?_, ?_, ?_, ?_⟩
    · rw [hget, List.countP_eq_length_filter]
      rfl
    · rw [hget, List.countP_eq_length_filter]
      rfl
    · rw [hget]
      simp only [Except.toOption, Option.map_some]
      constructor
      · intro hsub
        have : ((db.subscriptions.filter (fun s => s.channel = a.id)).map
            (fun s => s.subscriber)).contains v = true := by
          simpa using hsub
        have hv := List.elem_iff.1 this
        obtain ⟨s, hs, hsv⟩ := List.mem_map.1 hv
        have hsf := List.mem_filter.1 hs
        exact ⟨s, hsf.1, by simpa using hsf.2, hsv⟩
      · intro ⟨s, hs, hch, hsv⟩
        have : v ∈ ((db.subscriptions.filter (fun s => s.channel = a.id)).map
            (fun s => s.subscriber)) :=
          List.mem_map.2 ⟨s, List.mem_filter.2 ⟨hs, by simpa using hch⟩, hsv⟩
        simpa using List.elem_iff.2 this
    · rw [hroute]
      simp [Except.toOption]

/-- Witness for C4's amended theorem at a concrete input: viewer 2,
channel "Chan" (matched case-insensitively) in `dbC4`. -/
theorem channel_profile_counts_and_isSubscribed_witness :
    (("Chan" : String) ≠ "" ∧
     (dbC4.users.filter (fun x => x.username = jsToLower "Chan")).head?
       = some { id := 1, username := "chan", email := "c@x", fullName := "Chan",
                password := "p", avatar := "a", coverImage := "",
                refreshToken := none, watchHistory := [] }) ∧
    (((getUserChannelProfile (some 2) (some "Chan") dbC4).toOption.map
        (fun r => r.data.subscriberCount)
       = some (dbC4.subscriptions.countP (fun s => s.channel = 1))) ∧
     ((getUserChannelProfile (some 2) (some "Chan") dbC4).toOption.map
        (fun r => r.data.subscribedToCount)
       = some (dbC4.subscriptions.countP (fun s => s.subscriber = 1))) ∧
     (((getUserChannelProfile (some 2) (some "Chan") dbC4).toOption.map
        (fun r => r.data.isSubscribed) = some true)
       ↔ ∃ s ∈ dbC4.subscriptions, s.channel = 1 ∧ s.subscriber = 2) ∧
     ((routeChannelProfile (some "Chan") dbC4).toOption.map
        (fun r => r.data.isSubscribed) ≠ some true)) :=
  ⟨⟨by decide, by decide⟩,
   channel_profile_counts_and_isSubscribed dbC4 2 "Chan"
     { id := 1, username := "chan", email := "c@x", fullName := "Chan",
       password := "p", avatar := "a", coverImage := "",
       refreshToken := none, watchHistory := [] }
     (by decide) (by decide)⟩

/-- A user whose media URLs are about to be updated. -/
def userC6 : User :=
  { id := 1, username := "u6", email := "u6@x", fullName := "U Six",
    password := "p", avatar := "oldav", coverImage := "oldcov",
    refreshToken := none, watchHistory := [] }

/-- A state with `userC6` in the store and one staged temp file. -/
def stC6 : St :=
  { db := { users := [userC6], subscriptions := [], videos := [], nextId := 2,
            nextTokenSerial := 0 },
    fs := ["f.png"] }

/-- C6 counterexample: when the remote upload fails, `updateUserAvatar` and
`updateUserCoverImage` throw `ApiError(400, ...)` — status 400, not the
claimed InternalError 500. -/
theorem update_media_upload_failure_status_counterexample :
    ((updateUserAvatar uplFail 1 (some "f.png") stC6).1
       = .error (.api 400 "Error uploading avatar")) ∧
    ((updateUserCoverImage uplFail 1 (some "f.png") stC6).1
       = .error (.api 400 "Error uploading cover image")) ∧
    (400 : Nat) ≠ 500 :=
  ⟨by decide, by decide, by decide⟩

/-- C6 (amended): for every authenticated update-avatar or
update-cover-image request, the operation fails with BadRequest (400) if no
file is supplied, fails with BadRequest (400, "Error uploading ...") if the
media upload fails, and otherwise overwrites only the corresponding URL
field on the user record, leaving every other user unchanged. -/
theorem update_media_error_handling (upl : Uploader) (uid : Nat) (p : String)
    (st : St) (u : User) (resp : CloudResponse)
    (hu : findById st.db.users uid = some u) (hmem : p ∈ st.fs) (hp : p ≠ "") :
    ((updateUserAvatar upl uid none st).1
       = .error (.api 400 "Please upload an avatar")) ∧
    ((updateUserCoverImage upl uid none st).1
       = .error (.api 400 "Please upload the cover image")) ∧
    (upl p = none →
      (updateUserAvatar upl uid (some p) st).1
        = .error (.api 400 "Error uploading avatar") ∧
      (updateUserCoverImage upl uid (some p) st).1
        = .error (.api 400 "Error uploading cover image")) ∧
    (upl p = some resp →
      findById (updateUserAvatar upl uid (some p) st).2.db.users uid
        = some { u with avatar := resp.url } ∧
      findById (updateUserCoverImage upl uid (some p) st).2.db.users uid
        = some { u with coverImage := resp.url } ∧
      (∀ w ∈ st.db.users, w.id ≠ uid →
        w ∈ (updateUserAvatar upl uid (some p) st).2.db.users ∧
        w ∈ (updateUserCoverImage upl uid (some p) st).2.db.users)) := by
  have hfalse : ¬ (falsyStr (some p) = true) := by
    simp [falsyStr, hp]
  have hunlink : unlinkSync p st.fs = .ok (st.fs.erase p) := by
    simp [unlinkSync, hmem]
  refine ⟨rfl, rfl, ?_, ?_⟩
  · intro hup
    have hcloud : uploadOnCloudinary upl (some p) st.fs = (.ok none, st.fs.erase p) := by
      rw [uploadOnCloudinary_some, if_neg hp, hup, hunlink]
    constructor
    · unfold updateUserAvatar
      rw [if_neg hfalse, hcloud]
    · unfold updateUserCoverImage
      rw [if_neg hfalse, hcloud]
  · intro hup
    have hcloud : uploadOnCloudinary upl (some p) st.fs
        = (.ok (some resp), st.fs.erase p) := by
      rw [uploadOnCloudinary_some, if_neg hp, hup, hunlink]
    have hfindAv : findById (updateById st.db.users uid
        (fun w => { w with avatar := resp.url })) uid
        = some { u with avatar := resp.url } := by
      rw [findById_updateById st.db.users uid
        (fun w => { w with avatar := resp.url }) (fun x => rfl), hu]
      rfl
    have hfindCov : findById (updateById st.db.users uid
        (fun w => { w with coverImage := resp.url })) uid
        = some { u with coverImage := resp.url } := by
      rw [findById_updateById st.db.users uid
        (fun w => { w with coverImage := resp.url }) (fun x => rfl), hu]
      rfl
    have hav : (updateUserAvatar upl uid (some p) st).2.db.users
        = updateById st.db.users uid (fun w => { w with avatar := resp.url }) := by
      unfold updateUserAvatar
      rw [if_neg hfalse, hcloud]
      simp only [hfindAv]
    have hcov : (updateUserCoverImage upl uid (some p) st).2.db.users
        = updateById st.db.users uid (fun w => { w with coverImage := resp.url }) := by
      unfold updateUserCoverImage
      rw [if_neg hfalse, hcloud]
      simp only [hfindCov]
    refine ⟨?_, ?_, ?_⟩
    · rw [hav]
      exact hfindAv
    · rw [hcov]
      exact hfindCov
    · intro w hw hne
      constructor
      · rw [hav]
        exact mem_updateById_of_ne st.db.users uid _ w hw hne
      · rw [hcov]
        exact mem_updateById_of_ne st.db.users uid _ w hw hne

/-- Witness for C6's amended theorem: user 1 in `stC6`, temp file "f.png",
an uploader that succeeds with descriptor url "http://cdn/f.png". -/
theorem update_media_error_handling_witness :
    (findById stC6.db.users 1 = some userC6 ∧ ("f.png" : String) ∈ stC6.fs ∧
     ("f.png" : String) ≠ "") ∧
    (((updateUserAvatar uplOk 1 none stC6).1
        = .error (.api 400 "Please upload an avatar")) ∧
     ((updateUserCoverImage uplOk 1 none stC6).1
        = .error (.api 400 "Please upload the cover image")) ∧
     (uplOk "f.png" = none →
       (updateUserAvatar uplOk 1 (some "f.png") stC6).1
         = .error (.api 400 "Error uploading avatar") ∧
       (updateUserCoverImage uplOk 1 (some "f.png") stC6).1
         = .error (.api 400 "Error uploading cover image")) ∧
     (uplOk "f.png" = some { url := "http://cdn/f.png" } →
       findById (updateUserAvatar uplOk 1 (some "f.png") stC6).2.db.users 1
         = some { userC6 with avatar := "http://cdn/f.png" } ∧
       findById (updateUserCoverImage uplOk 1 (some "f.png") stC6).2.db.users 1
         = some { userC6 with coverImage := "http://cdn/f.png" } ∧
       (∀ w ∈ stC6.db.users, w.id ≠ 1 →
         w ∈ (updateUserAvatar uplOk 1 (some "f.png") stC6).2.db.users ∧
         w ∈ (updateUserCoverImage uplOk 1 (some "f.png") stC6).2.db.users))) :=
  ⟨⟨by decide, by decide, by decide⟩,
   update_media_error_handling uplOk 1 "f.png" stC6 userC6
     { url := "http://cdn/f.png" } (by decide) (by decide) (by decide)⟩

/-- C8: for every store state containing a user whose email or (stored,
lowercase) username matches the corresponding field of a well-formed
registration attempt, `registerUser` throws `ApiError(409, ...)` and leaves
the state — in particular the user collection — unchanged, so no duplicate
record is created and the uniqueness of username and email is preserved. -/
theorem register_conflict_on_existing_identity (upl : Uploader)
    (body : RegisterBody) (files : Option RegisterFiles) (st : St)
    (e un : String) (w : User)
    (hemail : body.email = some e) (husername : body.username = some un)
    (hvalid : [body.fullName, body.email, body.username,
               body.password].any blankPresent = false)
    (hw : w ∈ st.db.users) (hdup : w.email = e ∨ w.username = un) :
    (registerUser upl body files st).1 = .error (.api 409 "User already exists") ∧
    (registerUser upl body files st).2 = st := by
  have hmatch : orMatch body.email body.username w = true := by
    unfold orMatch
    rw [hemail, husername]
    rcases hdup with h | h <;> simp [h]
  have hfind : (st.db.users.find? (orMatch body.email body.username)).isSome :=
    List.find?_isSome.2 ⟨w, hw, hmatch⟩
  obtain ⟨x, hx⟩ := Option.isSome_iff_exists.1 hfind
  have hvnot : ¬ ([body.fullName, body.email, body.username,
      body.password].any blankPresent = true) := by
    simp [hvalid]
  unfold registerUser
  rw [if_neg hvnot, hx]
  exact ⟨rfl, rfl⟩

/-- A user already present in the store for the duplicate-registration
witness. -/
def userC8 : User :=
  { id := 3, username := "taken", email := "taken@x", fullName := "Taken",
    password := "p", avatar := "a", coverImage := "", refreshToken := none,
    watchHistory := [] }

/-- A state containing `userC8`. -/
def stC8 : St :=
  { db := { users := [userC8], subscriptions := [], videos := [], nextId := 4,
            nextTokenSerial := 0 },
    fs := [] }

/-- A registration attempt re-using `userC8`'s email. -/
def bodyC8 : RegisterBody :=
  { fullName := some "Fresh Name", email := some "taken@x",
    username := some "fresh", password := some "pw" }

/-- Witness for C8 at a concrete input: a second registration with the
already-stored email `taken@x`. -/
theorem register_conflict_on_existing_identity_witness :
    (bodyC8.email = some "taken@x" ∧ bodyC8.username = some "fresh" ∧
     [bodyC8.fullName, bodyC8.email, bodyC8.username,
      bodyC8.password].any blankPresent = false ∧
     userC8 ∈ stC8.db.users ∧
     (userC8.email = "taken@x" ∨ userC8.username = "fresh")) ∧
    ((registerUser uplOk bodyC8 none stC8).1
       = .error (.api 409 "User already exists") ∧
     (registerUser uplOk bodyC8 none stC8).2 = stC8) :=
  ⟨⟨by decide, by decide, by decide, by decide, by decide⟩,
   register_conflict_on_existing_identity uplOk bodyC8 none stC8 "taken@x"
     "fresh" userC8 (by decide) (by decide) (by decide) (by decide)
     (by decide)⟩

/-- C9: whenever `registerUser` succeeds, the returned record carries
neither a `password` nor a `refreshToken` key — it is the re-fetched
document with both fields deselected. -/
theorem register_response_omits_credentials (upl : Uploader)
    (body : RegisterBody) (files : Option RegisterFiles) (st : St)
    (ok : ApiOk Doc) (st' : St)
    (h : registerUser upl body files st = (.ok ok, st')) :
    "password" ∉ ok.data.map Prod.fst ∧
    "refreshToken" ∉ ok.data.map Prod.fst := by
  unfold registerUser at h
  repeat' (first | split at h | dsimp only at h)
  all_goals simp only [Prod.mk.injEq] at h
  all_goals
    first
      | (obtain ⟨h1, -⟩ := h
         rw [← Except.ok.inj h1]
         exact ⟨not_mem_keys_selectExcluding _ _ _ (by simp),
                not_mem_keys_selectExcluding _ _ _ (by simp)⟩)
      | simp at h

/-- Witness for C9 at a concrete input: the successful registration of
`bodyOk` over the empty store `st0`. -/
theorem register_response_omits_credentials_witness :
    (registerUser uplOk bodyOk
       (some { avatar := some [{ path := "ava.png" }],
               coverImage := some [{ path := "cov.png" }] }) st0
     = (.ok { httpStatus := 201, statusCode := 200,
              data := [("_id", .num 10), ("username", .str "newuser"),
                       ("email", .str "e@x.com"),
                       ("fullName", .str "Full Name"),
                       ("avatar", .str "http://cdn/ava.png"),
                       ("coverImage", .str "http://cdn/cov.png"),
                       ("watchHistory", .ids [])] },
        { db := { users := [{ id := 10, username := "newuser",
                              email := "e@x.com", fullName := "Full Name",
                              password := "secret",
                              avatar := "http://cdn/ava.png",
                              coverImage := "http://cdn/cov.png",
                              refreshToken := none, watchHistory := [] }],
                  subscriptions := [], videos := [], nextId := 11,
                  nextTokenSerial := 0 },
          fs := [] })) ∧
    ("password" ∉ ([("_id", DocVal.num 10), ("username", .str "newuser"),
                    ("email", .str "e@x.com"), ("fullName", .str "Full Name"),
                    ("avatar", .str "http://cdn/ava.png"),
                    ("coverImage", .str "http://cdn/cov.png"),
                    ("watchHistory", .ids [])] : Doc).map Prod.fst ∧
     "refreshToken" ∉ ([("_id", DocVal.num 10), ("username", .str "newuser"),
                        ("email", .str "e@x.com"),
                        ("fullName", .str "Full Name"),
                        ("avatar", .str "http://cdn/ava.png"),
                        ("coverImage", .str "http://cdn/cov.png"),
                        ("watchHistory", .ids [])] : Doc).map Prod.fst) :=
  ⟨by decide,
   register_response_omits_credentials uplOk bodyOk
     (some { avatar := some [{ path := "ava.png" }],
             coverImage := some [{ path := "cov.png" }] }) st0
     { httpStatus := 201, statusCode := 200,
       data := [("_id", .num 10), ("username", .str "newuser"),
                ("email", .str "e@x.com"), ("fullName", .str "Full Name"),
                ("avatar", .str "http://cdn/ava.png"),
                ("coverImage", .str "http://cdn/cov.png"),
                ("watchHistory", .ids [])] }
     { db := { users := [{ id := 10, username := "newuser",
                           email := "e@x.com", fullName := "Full Name",
                           password := "secret",
                           avatar := "http://cdn/ava.png",
                           coverImage := "http://cdn/cov.png",
                           refreshToken := none, watchHistory := [] }],
               subscriptions := [], videos := [], nextId := 11,
               nextTokenSerial := 0 },
       fs := [] }
     (by decide)⟩

/-- C10: `registerUser` throws the empty-field validation error
`ApiError(400, "Please fill in all fields")` exactly when one of the four
text fields is present and trims to the empty string; a field that is
entirely absent (`undefined`) never triggers this branch, because
`undefined?.trim()` is `undefined`, which is not `""`. -/
theorem register_validation_absent_fields_pass (upl : Uploader)
    (body : RegisterBody) (files : Option RegisterFiles) (st : St) :
    ((registerUser upl body files st).1
       = .error (.api 400 "Please fill in all fields"))
      ↔ ∃ f ∈ [body.fullName, body.email, body.username, body.password],
          ∃ s : String, f = some s ∧ jsTrim s = "" := by
  have hany : ([body.fullName, body.email, body.username,
      body.password].any blankPresent = true)
      ↔ ∃ f ∈ [body.fullName, body.email, body.username, body.password],
          ∃ s : String, f = some s ∧ jsTrim s = "" := by
    rw [List.any_eq_true]
    constructor
    · rintro ⟨f, hf, hb⟩
      cases f with
      | none => simp [blankPresent] at hb
      | some s =>
        exact ⟨some s, hf, s, rfl, by simpa [blankPresent] using hb⟩
    · rintro ⟨f, hf, s, rfl, hs⟩
      exact ⟨some s, hf, by simp [blankPresent, hs]⟩
  rw [← hany]
  constructor
  · intro h
    by_contra hv
    unfold registerUser at h
    rw [if_neg hv] at h
    repeat' (first | split at h | dsimp only at h)
    all_goals
      first
        | (rename_i heq
           rw [uploadOnCloudinary_error_shape _ _ _ _ _ heq] at h
           simp at h)
        | simp at h
  · intro hv
    unfold registerUser
    rw [if_pos hv]

end YtBackend
